import Mathlib

/-!
Shallow embedding of the data-shaping pipeline of `bababoi.py`: the Loader
(`load_crowdin_data`), the Metric Deriver (the derived-column block inside
`load_crowdin_data`), and the Temporal Extractor (`create_temporal_data`).

Modelling conventions:
* JSON dictionaries are modelled by structures whose fields are `Option`s —
  `none` means the key is absent.  Python's `dict.get(k, d)` becomes
  `Option.getD`.  Python truthiness of a dictionary (non-empty) becomes a
  `Bool`-valued `nonempty` predicate; truthiness of a number is `≠ 0`.
* Counts are `Nat` (the spec declares them non-negative integers);
  `weightedUnits` is `Int` (spec: "numeric").
* Derived metrics are exact rationals (`ℚ`).  The guarded rate columns use
  `np.where(total > 0, x / total * 100, 0)`: the observable result is the
  guarded value, so they are total functions.  `risk_score`'s division is
  not guarded; a division whose denominator is zero is modelled as `none`
  (exact arithmetic has no NaN/inf), so `risk_score : Option ℚ`.
* `pd.to_datetime` is an external library call; the Temporal Extractor takes
  an abstract `parse : String → Option Nat` (a date is an opaque `Nat`).
* A file whose `json.load` fails is modelled as `(path, none)`; the
  exception text interpolated into the warning is abstracted away, the
  warning keeps the `"Error processing <path>"` prefix.
-/

/-- The `postEdited` sub-dictionary: keys `"0-5"`, `"6-10"`, `"11-15"`,
`"other"`, each optionally present. -/
structure PostEditedJson where
  pe_0_5 : Option Nat
  pe_6_10 : Option Nat
  pe_11_15 : Option Nat
  pe_other : Option Nat
deriving DecidableEq, Repr

/-- Python truthiness of the `postEdited` dictionary value: a dict is truthy
iff it is non-empty (has at least one key), regardless of the values. -/
def PostEditedJson.nonempty (p : PostEditedJson) : Bool :=
  p.pe_0_5.isSome || p.pe_6_10.isSome || p.pe_11_15.isSome || p.pe_other.isSome

/-- The empty `postEdited` dictionary (`{}`), the default of
`cumulative.get('postEdited', {})`. -/
def PostEditedJson.empty : PostEditedJson := ⟨none, none, none, none⟩

/-- A `cumulativeStatistics` dictionary: keys `approvedWithoutEdit`,
`postEdited`, `weightedUnits`, each optionally present. -/
structure CumulativeStats where
  approvedWithoutEdit : Option Nat
  postEdited : Option PostEditedJson
  weightedUnits : Option Int
deriving DecidableEq, Repr

/-- Python truthiness of the cumulative dictionary itself (`if ai_cumulative`):
true iff the dict has at least one key. -/
def CumulativeStats.nonempty (c : CumulativeStats) : Bool :=
  c.approvedWithoutEdit.isSome || c.postEdited.isSome || c.weightedUnits.isSome

/-- `any(ai_cumulative.values())`: some present value is truthy.  A number is
truthy iff non-zero; the nested `postEdited` dict is truthy iff non-empty. -/
def CumulativeStats.anyTruthy (c : CumulativeStats) : Bool :=
  (match c.approvedWithoutEdit with | some v => v ≠ 0 | none => false) ||
  (match c.postEdited with | some p => p.nonempty | none => false) ||
  (match c.weightedUnits with | some w => w ≠ 0 | none => false)

/-- The emission guard `if ai_cumulative and any(ai_cumulative.values())`,
where `ai_cumulative` defaults to `{}` when absent. -/
def emitsRecord (c : Option CumulativeStats) : Bool :=
  match c with
  | none => false
  | some s => s.nonempty && s.anyTruthy

/-- One day-level entry of `temporalStatistics`:
`{approvedWithoutEdit, postEdited}` with every key optional. -/
structure DayStats where
  approvedWithoutEdit : Option Nat
  postEdited : Option PostEditedJson
deriving DecidableEq, Repr

/-- The `"ai"` / `"mt"` / `"tm"` sub-dictionary of a language block. -/
structure MethodData where
  cumulativeStatistics : Option CumulativeStats
  temporalStatistics : List (String × DayStats)
deriving DecidableEq, Repr

/-- One element of the export's `data` array:
`language.name` / `language.code` (each optionally present) and the three
optional method sub-dictionaries. -/
structure LanguageBlock where
  langName : Option String
  langCode : Option String
  ai : Option MethodData
  mt : Option MethodData
  tm : Option MethodData
deriving DecidableEq, Repr

/-- A parsed export file: `name`, `dateRange.from` / `dateRange.to`, `data`. -/
structure RawExport where
  name : Option String
  dateFrom : Option String
  dateTo : Option String
  data : List LanguageBlock
deriving DecidableEq, Repr

/-- One row appended to `all_data` by the Loader. -/
structure FlatRecord where
  project : String
  language : String
  language_code : String
  method : String
  approved_without_edit : Nat
  post_edited_0_5 : Nat
  post_edited_6_10 : Nat
  post_edited_11_15 : Nat
  post_edited_other : Nat
  weighted_units : Int
  temporal_data : List (String × DayStats)
  date_from : Option String
  date_to : Option String
deriving DecidableEq, Repr

/-- Build the `FlatRecord` dictionary appended for one method, reading each
count with the inline `.get(..., 0)` defaults of lines 163–172. -/
def mkFlatRecord (project lang code mthd : String) (c : Option CumulativeStats)
    (temporal : List (String × DayStats)) (dFrom dTo : Option String) : FlatRecord :=
  let cum := c.getD ⟨none, none, none⟩
  let pe := cum.postEdited.getD PostEditedJson.empty
  { project := project
    language := lang
    language_code := code
    method := mthd
    approved_without_edit := cum.approvedWithoutEdit.getD 0
    post_edited_0_5 := pe.pe_0_5.getD 0
    post_edited_6_10 := pe.pe_6_10.getD 0
    post_edited_11_15 := pe.pe_11_15.getD 0
    post_edited_other := pe.pe_other.getD 0
    weighted_units := cum.weightedUnits.getD 0
    temporal_data := temporal
    date_from := dFrom
    date_to := dTo }

/-- Process one method sub-block (`ai` / `mt` / `tm`): emit one record when
the emission guard holds, nothing otherwise. -/
def processMethod (project lang code mthd : String) (md : Option MethodData)
    (dFrom dTo : Option String) : List FlatRecord :=
  let cum := md.bind (·.cumulativeStatistics)
  let temporal := (md.map (·.temporalStatistics)).getD []
  if emitsRecord cum then [mkFlatRecord project lang code mthd cum temporal dFrom dTo]
  else []

/-- Process one language block: AI, then MT, then TM (lines 147–216). -/
def processLanguage (project : String) (dFrom dTo : Option String)
    (b : LanguageBlock) : List FlatRecord :=
  let lang := b.langName.getD "Unknown"
  let code := b.langCode.getD "unknown"
  processMethod project lang code "AI" b.ai dFrom dTo ++
    processMethod project lang code "MT" b.mt dFrom dTo ++
      processMethod project lang code "TM" b.tm dFrom dTo

/-- Flatten one successfully parsed export file.  The project name defaults
to the file path with `".json"` removed (line 143). -/
def flattenExport (path : String) (e : RawExport) : List FlatRecord :=
  let project := e.name.getD (path.replace ".json" "")
  e.data.flatMap (processLanguage project e.dateFrom e.dateTo)

/-- An input file: its path and the result of `json.load` (`none` when the
file fails to parse). -/
abbrev ExportFile := String × Option RawExport

/-- Records contributed by one file: a file whose parse failed contributes
nothing (the `except` clause skips it). -/
def fileRecords (f : ExportFile) : List FlatRecord :=
  match f.2 with
  | none => []
  | some e => flattenExport f.1 e

/-- The `all_data` list accumulated over the whole batch. -/
def allRecords (files : List ExportFile) : List FlatRecord :=
  files.flatMap fileRecords

/-- The warning recorded for a file whose processing raised (line 219),
without the abstracted exception text. -/
def warnMsg (path : String) : String := "Error processing " ++ path

/-- What `load_crowdin_data` returns: `result = none` models the two
`st.error(...); return None` no-data exits, `warnings` collects the
`st.warning` calls of skipped files. -/
structure LoadResult where
  result : Option (List FlatRecord)
  warnings : List String
deriving DecidableEq, Repr

/-- The Loader, `load_crowdin_data` (lines 128–226 up to the DataFrame):
no files → no-data exit; per-file parse failure → warning and skip;
no surviving record → no-data exit; otherwise the accumulated rows. -/
def load_crowdin_data (files : List ExportFile) : LoadResult :=
  if files = [] then { result := none, warnings := [] }
  else
    let warnings := files.filterMap fun f =>
      match f.2 with | none => some (warnMsg f.1) | some _ => none
    let all_data := allRecords files
    if all_data = [] then { result := none, warnings := warnings }
    else { result := some all_data, warnings := warnings }

/-! ### Metric Deriver (lines 228–259) -/

/-- `total_strings` (line 229). -/
def FlatRecord.total_strings (r : FlatRecord) : Nat :=
  r.approved_without_edit + r.post_edited_0_5 + r.post_edited_6_10 +
    r.post_edited_11_15 + r.post_edited_other

/-- `total_post_edited` (line 232). -/
def FlatRecord.total_post_edited (r : FlatRecord) : Nat :=
  r.post_edited_0_5 + r.post_edited_6_10 + r.post_edited_11_15 + r.post_edited_other

/-- `approval_rate` (line 236): guarded by `np.where(total_strings > 0, ·, 0)`. -/
def FlatRecord.approval_rate (r : FlatRecord) : ℚ :=
  if 0 < r.total_strings then
    (r.approved_without_edit : ℚ) / (r.total_strings : ℚ) * 100
  else 0

/-- `human_intervention_rate` (line 239). -/
def FlatRecord.human_intervention_rate (r : FlatRecord) : ℚ :=
  if 0 < r.total_strings then
    (r.total_post_edited : ℚ) / (r.total_strings : ℚ) * 100
  else 0

/-- `critical_edit_rate` (line 242). -/
def FlatRecord.critical_edit_rate (r : FlatRecord) : ℚ :=
  if 0 < r.total_strings then
    (r.post_edited_other : ℚ) / (r.total_strings : ℚ) * 100
  else 0

/-- `minor_edit_rate` (line 245). -/
def FlatRecord.minor_edit_rate (r : FlatRecord) : ℚ :=
  if 0 < r.total_strings then
    (r.post_edited_0_5 : ℚ) / (r.total_strings : ℚ) * 100
  else 0

/-- `quality_score` (line 249): severity-weighted average, guarded. -/
def FlatRecord.quality_score (r : FlatRecord) : ℚ :=
  if 0 < r.total_strings then
    ((r.approved_without_edit : ℚ) * 100 + (r.post_edited_0_5 : ℚ) * 95 +
      (r.post_edited_6_10 : ℚ) * 85 + (r.post_edited_11_15 : ℚ) * 70 +
      (r.post_edited_other : ℚ) * 40) / (r.total_strings : ℚ)
  else 0

/-- Division as it appears unguarded in the source: undefined (`none`) when
the denominator is zero. -/
def rawDiv (a b : ℚ) : Option ℚ :=
  if b = 0 then none else some (a / b)

/-- `risk_score` (line 257):
`critical_edit_rate * 3 + pe_11_15 / total * 100 * 2 + pe_6_10 / total * 100 * 1`,
with no zero-guard on the two divisions by `total_strings`. -/
def FlatRecord.risk_score (r : FlatRecord) : Option ℚ :=
  (rawDiv (r.post_edited_11_15 : ℚ) (r.total_strings : ℚ)).bind fun x =>
    (rawDiv (r.post_edited_6_10 : ℚ) (r.total_strings : ℚ)).map fun y =>
      r.critical_edit_rate * 3 + x * 100 * 2 + y * 100 * 1

/-! ### Temporal Extractor, `create_temporal_data` (lines 263–299) -/

/-- The day total of one `temporalStatistics` entry (lines 272–276). -/
def DayStats.totalDay (s : DayStats) : Nat :=
  let pe := s.postEdited.getD PostEditedJson.empty
  s.approvedWithoutEdit.getD 0 + pe.pe_0_5.getD 0 + pe.pe_6_10.getD 0 +
    pe.pe_11_15.getD 0 + pe.pe_other.getD 0

/-- The day's post-edited total, the numerator of `intervention_rate_day`. -/
def DayStats.editedDay (s : DayStats) : Nat :=
  let pe := s.postEdited.getD PostEditedJson.empty
  pe.pe_0_5.getD 0 + pe.pe_6_10.getD 0 + pe.pe_11_15.getD 0 + pe.pe_other.getD 0

/-- One row of the secondary table. -/
structure TemporalRecord where
  date : Nat
  project : String
  language : String
  method : String
  approved_without_edit : Nat
  total_strings : Nat
  approval_rate : ℚ
  intervention_rate : ℚ
  critical_edits : Nat
deriving DecidableEq, Repr

/-- Process one `(date_str, day_stats)` entry of a record's temporal data:
skip it when the date fails to parse or the day total is zero, otherwise emit
one `TemporalRecord` (lines 270–297). -/
def processEntry (parse : String → Option Nat) (r : FlatRecord)
    (e : String × DayStats) : Option TemporalRecord :=
  match parse e.1 with
  | none => none
  | some d =>
    let s := e.2
    let total := s.totalDay
    if 0 < total then
      some { date := d
             project := r.project
             language := r.language
             method := r.method
             approved_without_edit := s.approvedWithoutEdit.getD 0
             total_strings := total
             approval_rate := (s.approvedWithoutEdit.getD 0 : ℚ) / (total : ℚ) * 100
             intervention_rate := (s.editedDay : ℚ) / (total : ℚ) * 100
             critical_edits := (s.postEdited.getD PostEditedJson.empty).pe_other.getD 0 }
    else none

/-- The Temporal Extractor: for each row whose `temporal_data` is a non-empty
dict, process every entry; collect every emitted record. -/
def create_temporal_data (parse : String → Option Nat)
    (df : List FlatRecord) : List TemporalRecord :=
  df.flatMap fun r =>
    if r.temporal_data = [] then []
    else r.temporal_data.filterMap (processEntry parse r)

/-! ### Concrete inputs used in counterexamples and witnesses -/

/-- A cumulative dict whose numeric fields are all zero but whose
`postEdited` sub-dict is present with explicit zero entries. -/
def zeroCum : CumulativeStats :=
  { approvedWithoutEdit := some 0
    postEdited := some ⟨some 0, some 0, some 0, some 0⟩
    weightedUnits := some 0 }

/-- An export with a single language block whose only method data is the
all-zero cumulative block `zeroCum`. -/
def zeroBlockExport : RawExport :=
  { name := some "proj"
    dateFrom := none
    dateTo := none
    data := [{ langName := some "English"
               langCode := some "en"
               ai := some { cumulativeStatistics := some zeroCum
                            temporalStatistics := [] }
               mt := none
               tm := none }] }

/-- The single record the Loader emits for `zeroBlockExport`. -/
def zeroRec : FlatRecord :=
  mkFlatRecord "proj" "English" "en" "AI" (some zeroCum) [] none none

/-- The worked example of the spec: counts 80 / 10 / 5 / 3 / 2. -/
def sampleRec : FlatRecord :=
  { project := "p", language := "l", language_code := "c", method := "AI"
    approved_without_edit := 80, post_edited_0_5 := 10, post_edited_6_10 := 5
    post_edited_11_15 := 3, post_edited_other := 2, weighted_units := 0
    temporal_data := [], date_from := none, date_to := none }

/-- A record with every count zero. -/
def emptyRec : FlatRecord :=
  { project := "p", language := "l", language_code := "c", method := "AI"
    approved_without_edit := 0, post_edited_0_5 := 0, post_edited_6_10 := 0
    post_edited_11_15 := 0, post_edited_other := 0, weighted_units := 0
    temporal_data := [], date_from := none, date_to := none }

/-! ### C1 -/

/-- C1 (counterexample): the Loader, on a single file whose single
language/method block has every count field equal to zero (but with the
`postEdited` sub-dict present), emits exactly one FlatRecord — the all-zero
block is NOT dropped, refuting the claimed invariant. -/
theorem c1_all_zero_block_emitted :
    (load_crowdin_data [("f.json", some zeroBlockExport)]).result = some [zeroRec] ∧
    zeroRec.approved_without_edit = 0 ∧ zeroRec.post_edited_0_5 = 0 ∧
    zeroRec.post_edited_6_10 = 0 ∧ zeroRec.post_edited_11_15 = 0 ∧
    zeroRec.post_edited_other = 0 ∧ zeroRec.weighted_units = 0 := by
  decide

/-- Helper: the Python truthiness test `any(cumulative.values())`, spelled
out over the three optionally present keys. -/
theorem anyTruthy_iff (c : CumulativeStats) :
    c.anyTruthy = true ↔
      ((∃ v, c.approvedWithoutEdit = some v ∧ v ≠ 0) ∨
       (∃ p, c.postEdited = some p ∧ p.nonempty = true) ∨
       (∃ w, c.weightedUnits = some w ∧ w ≠ 0)) := by
  rcases c with ⟨a, p, w⟩
  rcases a <;> rcases p <;> rcases w <;>
    simp [CumulativeStats.anyTruthy, or_assoc]

/-- Helper: any truthy value forces the dictionary to be non-empty. -/
theorem nonempty_of_anyTruthy (c : CumulativeStats) (h : c.anyTruthy = true) :
    c.nonempty = true := by
  rcases c with ⟨a, p, w⟩
  rcases a <;> rcases p <;> rcases w <;>
    simp_all [CumulativeStats.anyTruthy, CumulativeStats.nonempty]

/-- C1 (amended): the Loader emits a FlatRecord for a (language, method)
pair iff the pair's `cumulativeStatistics` dict is present and one of its
top-level values is truthy: a non-zero `approvedWithoutEdit`, a present
non-empty `postEdited` sub-dict (even one whose counts are all zero), or a
non-zero `weightedUnits`. -/
theorem c1_emission_condition (project lang code mthd : String)
    (md : Option MethodData) (dF dT : Option String) :
    processMethod project lang code mthd md dF dT ≠ [] ↔
      ∃ c, md.bind (·.cumulativeStatistics) = some c ∧
        ((∃ v, c.approvedWithoutEdit = some v ∧ v ≠ 0) ∨
         (∃ p, c.postEdited = some p ∧ p.nonempty = true) ∨
         (∃ w, c.weightedUnits = some w ∧ w ≠ 0)) := by
  unfold processMethod
  cases hc : md.bind (·.cumulativeStatistics) with
  | none => simp [emitsRecord, hc]
  | some c =>
    simp only [hc]
    constructor
    · intro h
      refine ⟨c, rfl, ?_⟩
      rw [← anyTruthy_iff]
      by_cases ht : emitsRecord (some c) = true
      · have h2 := ht
        simp only [emitsRecord, Bool.and_eq_true] at h2
        exact h2.2
      · simp [ht] at h
    · rintro ⟨c2, hc2, h⟩
      obtain rfl : c = c2 := by injection hc2
      have ht : c.anyTruthy = true := (anyTruthy_iff c).mpr h
      have hn : c.nonempty = true := nonempty_of_anyTruthy c ht
      simp [emitsRecord, hn, ht]

/-- C1 (witness): concrete instantiation of the amended emission condition
on the all-zero block with a present `postEdited` sub-dict. -/
theorem c1_emission_condition_witness :
    processMethod "proj" "English" "en" "AI"
      (some { cumulativeStatistics := some zeroCum, temporalStatistics := [] })
      none none ≠ [] :=
  (c1_emission_condition "proj" "English" "en" "AI"
      (some { cumulativeStatistics := some zeroCum, temporalStatistics := [] })
      none none).mpr
    ⟨zeroCum, rfl, Or.inr (Or.inl ⟨⟨some 0, some 0, some 0, some 0⟩, rfl, rfl⟩)⟩

/-! ### C2 -/

/-- C2: `risk_score` is
`3×critical_edit_rate + 2×(100×post_edited_11_15/total_strings) +
1×(100×post_edited_6_10/total_strings)`, and unlike every sibling rate
column its divisions by `total_strings` carry no else-0 guard: on a row with
`total_strings = 0` the computation divides by zero (modelled as `none`),
while every guarded sibling rate yields 0 there. -/
theorem c2_risk_score_unguarded (r : FlatRecord) :
    (0 < r.total_strings →
      r.risk_score = some (r.critical_edit_rate * 3 +
        (r.post_edited_11_15 : ℚ) / (r.total_strings : ℚ) * 100 * 2 +
        (r.post_edited_6_10 : ℚ) / (r.total_strings : ℚ) * 100 * 1)) ∧
    (r.total_strings = 0 →
      r.risk_score = none ∧ r.approval_rate = 0 ∧
        r.human_intervention_rate = 0 ∧ r.critical_edit_rate = 0 ∧
        r.minor_edit_rate = 0) := by
  constructor
  · intro h
    have hz : (r.total_strings : ℚ) ≠ 0 := by
      exact_mod_cast Nat.pos_iff_ne_zero.mp h
    simp [FlatRecord.risk_score, rawDiv, hz]
  · intro h
    have hz : (r.total_strings : ℚ) = 0 := by exact_mod_cast h
    refine ⟨?_, ?_, ?_, ?_, ?_⟩
    · simp [FlatRecord.risk_score, rawDiv, hz]
    · simp [FlatRecord.approval_rate, h]
    · simp [FlatRecord.human_intervention_rate, h]
    · simp [FlatRecord.critical_edit_rate, h]
    · simp [FlatRecord.minor_edit_rate, h]

/-- C2 (witness): the unguarded formula on the 80/10/5/3/2 example and the
division by zero on the all-zero record. -/
theorem c2_risk_score_unguarded_witness :
    sampleRec.risk_score = some (sampleRec.critical_edit_rate * 3 +
      (sampleRec.post_edited_11_15 : ℚ) / (sampleRec.total_strings : ℚ) * 100 * 2 +
      (sampleRec.post_edited_6_10 : ℚ) / (sampleRec.total_strings : ℚ) * 100 * 1) ∧
    emptyRec.risk_score = none :=
  ⟨(c2_risk_score_unguarded sampleRec).1 (by decide),
   ((c2_risk_score_unguarded emptyRec).2 rfl).1⟩

/-! ### C3 -/

/-- C3 (counterexample): on the spec's own worked example (counts
80/10/5/3/2, total 100) the quality-score formula evaluates to 96.65, not
the 91.95 the claim states. -/
theorem c3_quality_score_not_91_95 :
    sampleRec.quality_score ≠ (91.95 : ℚ) ∧
      sampleRec.quality_score = (96.65 : ℚ) := by
  constructor <;> norm_num [FlatRecord.quality_score, FlatRecord.total_strings, sampleRec]

/-- C3 (amended): on the 80/10/5/3/2 example the Metric Deriver yields
`approval_rate = 80.0`, `human_intervention_rate = 20.0`,
`critical_edit_rate = 2.0`, and
`quality_score = (80·100 + 10·95 + 5·85 + 3·70 + 2·40)/100 = 96.65`. -/
theorem c3_worked_example :
    sampleRec.total_strings = 100 ∧
    sampleRec.approval_rate = 80 ∧
    sampleRec.human_intervention_rate = 20 ∧
    sampleRec.critical_edit_rate = 2 ∧
    sampleRec.quality_score = (96.65 : ℚ) := by
  refine ⟨rfl, ?_, ?_, ?_, ?_⟩ <;>
    norm_num [FlatRecord.approval_rate, FlatRecord.human_intervention_rate,
      FlatRecord.critical_edit_rate, FlatRecord.quality_score,
      FlatRecord.total_strings, FlatRecord.total_post_edited, sampleRec]

/-! ### C4 and C9 -/

/-- Helper: a guarded rate `num / total * 100` lies in `[0, 100]` when
`0 < total` and `num ≤ total`. -/
theorem rate_mem_range (num total : Nat) (h : 0 < total) (hle : num ≤ total) :
    0 ≤ (num : ℚ) / (total : ℚ) * 100 ∧ (num : ℚ) / (total : ℚ) * 100 ≤ 100 := by
  have ht : (0 : ℚ) < (total : ℚ) := by exact_mod_cast h
  have hle2 : (num : ℚ) ≤ (total : ℚ) := by exact_mod_cast hle
  constructor
  · positivity
  · rw [div_mul_eq_mul_div, div_le_iff₀ ht]
    nlinarith

/-- C4: for every FlatRecord, `total_strings = approved_without_edit +
total_post_edited`; every rate column lies in `[0, 100]` when
`total_strings > 0`; and every rate column is 0 when `total_strings = 0`. -/
theorem c4_rate_invariants (r : FlatRecord) :
    r.total_strings = r.approved_without_edit + r.total_post_edited ∧
    (0 < r.total_strings →
      (0 ≤ r.approval_rate ∧ r.approval_rate ≤ 100) ∧
      (0 ≤ r.human_intervention_rate ∧ r.human_intervention_rate ≤ 100) ∧
      (0 ≤ r.critical_edit_rate ∧ r.critical_edit_rate ≤ 100) ∧
      (0 ≤ r.minor_edit_rate ∧ r.minor_edit_rate ≤ 100)) ∧
    (r.total_strings = 0 →
      r.approval_rate = 0 ∧ r.human_intervention_rate = 0 ∧
      r.critical_edit_rate = 0 ∧ r.minor_edit_rate = 0) := by
  refine ⟨?_, ?_, ?_⟩
  · unfold FlatRecord.total_strings FlatRecord.total_post_edited
    omega
  · intro h
    have h1 : r.approved_without_edit ≤ r.total_strings := by
      unfold FlatRecord.total_strings; omega
    have h2 : r.total_post_edited ≤ r.total_strings := by
      unfold FlatRecord.total_strings FlatRecord.total_post_edited; omega
    have h3 : r.post_edited_other ≤ r.total_strings := by
      unfold FlatRecord.total_strings; omega
    have h4 : r.post_edited_0_5 ≤ r.total_strings := by
      unfold FlatRecord.total_strings; omega
    refine ⟨?_, ?_, ?_, ?_⟩
    · simpa [FlatRecord.approval_rate, h] using rate_mem_range _ _ h h1
    · simpa [FlatRecord.human_intervention_rate, h] using rate_mem_range _ _ h h2
    · simpa [FlatRecord.critical_edit_rate, h] using rate_mem_range _ _ h h3
    · simpa [FlatRecord.minor_edit_rate, h] using rate_mem_range _ _ h h4
  · intro h
    exact ⟨by simp [FlatRecord.approval_rate, h],
           by simp [FlatRecord.human_intervention_rate, h],
           by simp [FlatRecord.critical_edit_rate, h],
           by simp [FlatRecord.minor_edit_rate, h]⟩

/-- C4 (witness): the invariants at the 80/10/5/3/2 record and at the
all-zero record. -/
theorem c4_rate_invariants_witness :
    (0 ≤ sampleRec.approval_rate ∧ sampleRec.approval_rate ≤ 100) ∧
    emptyRec.approval_rate = 0 :=
  ⟨((c4_rate_invariants sampleRec).2.1 (by decide)).1,
   ((c4_rate_invariants emptyRec).2.2 rfl).1⟩

/-- C9: for every FlatRecord, `quality_score` lies in `[40, 100]` when
`total_strings > 0` (the minimum and maximum per-tier weights), and
`quality_score = 0` when `total_strings = 0`. -/
theorem c9_quality_score_bounds (r : FlatRecord) :
    (0 < r.total_strings → 40 ≤ r.quality_score ∧ r.quality_score ≤ 100) ∧
    (r.total_strings = 0 → r.quality_score = 0) := by
  constructor
  · intro h
    have ht : (0 : ℚ) < (r.total_strings : ℚ) := by exact_mod_cast h
    have hsum : (r.total_strings : ℚ) = (r.approved_without_edit : ℚ) +
        (r.post_edited_0_5 : ℚ) + (r.post_edited_6_10 : ℚ) +
        (r.post_edited_11_15 : ℚ) + (r.post_edited_other : ℚ) := by
      unfold FlatRecord.total_strings
      push_cast
      ring
    have ha : (0 : ℚ) ≤ (r.approved_without_edit : ℚ) := Nat.cast_nonneg _
    have hb : (0 : ℚ) ≤ (r.post_edited_0_5 : ℚ) := Nat.cast_nonneg _
    have hc : (0 : ℚ) ≤ (r.post_edited_6_10 : ℚ) := Nat.cast_nonneg _
    have hd : (0 : ℚ) ≤ (r.post_edited_11_15 : ℚ) := Nat.cast_nonneg _
    have he : (0 : ℚ) ≤ (r.post_edited_other : ℚ) := Nat.cast_nonneg _
    unfold FlatRecord.quality_score
    rw [if_pos h]
    constructor
    · rw [le_div_iff₀ ht]
      nlinarith
    · rw [div_le_iff₀ ht]
      nlinarith
  · intro h
    simp [FlatRecord.quality_score, h]

/-- C9 (witness): the bounds at the 80/10/5/3/2 record and the zero case at
the all-zero record. -/
theorem c9_quality_score_bounds_witness :
    (40 ≤ sampleRec.quality_score ∧ sampleRec.quality_score ≤ 100) ∧
    emptyRec.quality_score = 0 :=
  ⟨(c9_quality_score_bounds sampleRec).1 (by decide),
   (c9_quality_score_bounds emptyRec).2 rfl⟩

/-! ### C5 -/

/-- A record carrying only the five counts (the metadata fields are inert in
the Metric Deriver); used to state count-perturbation properties. -/
def countsRec (a b c d e : Nat) : FlatRecord :=
  { project := "", language := "", language_code := "", method := ""
    approved_without_edit := a, post_edited_0_5 := b, post_edited_6_10 := c
    post_edited_11_15 := d, post_edited_other := e, weighted_units := 0
    temporal_data := [], date_from := none, date_to := none }

/-- Helper: with equal totals, a smaller weighted numerator gives a smaller
quality score. -/
theorem quality_score_le_of_le (r s : FlatRecord)
    (htot : s.total_strings = r.total_strings)
    (hnum : (s.approved_without_edit : ℚ) * 100 + (s.post_edited_0_5 : ℚ) * 95 +
        (s.post_edited_6_10 : ℚ) * 85 + (s.post_edited_11_15 : ℚ) * 70 +
        (s.post_edited_other : ℚ) * 40 ≤
      (r.approved_without_edit : ℚ) * 100 + (r.post_edited_0_5 : ℚ) * 95 +
        (r.post_edited_6_10 : ℚ) * 85 + (r.post_edited_11_15 : ℚ) * 70 +
        (r.post_edited_other : ℚ) * 40) :
    s.quality_score ≤ r.quality_score := by
  unfold FlatRecord.quality_score
  rw [htot]
  by_cases h : 0 < r.total_strings
  · rw [if_pos h, if_pos h]
    have ht : (0 : ℚ) < (r.total_strings : ℚ) := by exact_mod_cast h
    exact (div_le_div_iff_of_pos_right ht).mpr hnum
  · rw [if_neg h, if_neg h]

/-- C5: holding `total_strings` fixed, moving any amount `k` of count from
`approved_without_edit` or from the `0-5`, `6-10`, or `11-15` buckets into
the `other` bucket never increases `quality_score`. -/
theorem c5_quality_score_monotone (a b c d e k : Nat) :
    (k ≤ a → (countsRec (a - k) b c d (e + k)).quality_score ≤
      (countsRec a b c d e).quality_score) ∧
    (k ≤ b → (countsRec a (b - k) c d (e + k)).quality_score ≤
      (countsRec a b c d e).quality_score) ∧
    (k ≤ c → (countsRec a b (c - k) d (e + k)).quality_score ≤
      (countsRec a b c d e).quality_score) ∧
    (k ≤ d → (countsRec a b c (d - k) (e + k)).quality_score ≤
      (countsRec a b c d e).quality_score) := by
  have hk : (0 : ℚ) ≤ (k : ℚ) := Nat.cast_nonneg _
  refine ⟨fun h => ?_, fun h => ?_, fun h => ?_, fun h => ?_⟩ <;>
    refine quality_score_le_of_le _ _ ?_ ?_ <;>
    simp only [countsRec, FlatRecord.total_strings] <;>
    first
      | omega
      | (push_cast [Nat.cast_sub h]; nlinarith)

/-- C5 (witness): moving one string from each source tier into the `other`
tier on the 80/10/5/3/2 counts never increases the quality score. -/
theorem c5_quality_score_monotone_witness :
    (countsRec 79 10 5 3 3).quality_score ≤ (countsRec 80 10 5 3 2).quality_score ∧
    (countsRec 80 9 5 3 3).quality_score ≤ (countsRec 80 10 5 3 2).quality_score ∧
    (countsRec 80 10 4 3 3).quality_score ≤ (countsRec 80 10 5 3 2).quality_score ∧
    (countsRec 80 10 5 2 3).quality_score ≤ (countsRec 80 10 5 3 2).quality_score :=
  ⟨(c5_quality_score_monotone 80 10 5 3 2 1).1 (by decide),
   (c5_quality_score_monotone 80 10 5 3 2 1).2.1 (by decide),
   (c5_quality_score_monotone 80 10 5 3 2 1).2.2.1 (by decide),
   (c5_quality_score_monotone 80 10 5 3 2 1).2.2.2 (by decide)⟩

/-! ### C6 and C10 -/

/-- Helper: an entry is emitted exactly when its date parses and its day
total is positive. -/
theorem processEntry_isSome (parse : String → Option Nat) (r : FlatRecord)
    (e : String × DayStats) :
    (processEntry parse r e).isSome =
      ((parse e.1).isSome && decide (0 < e.2.totalDay)) := by
  unfold processEntry
  cases parse e.1 with
  | none => rfl
  | some d =>
    by_cases h : 0 < e.2.totalDay
    · simp [h]
    · simp [h]

/-- Helper: any emitted TemporalRecord carries the entry's positive day
total as its `total_strings`. -/
theorem processEntry_total_pos (parse : String → Option Nat) (r : FlatRecord)
    (e : String × DayStats) (t : TemporalRecord)
    (h : processEntry parse r e = some t) : 0 < t.total_strings := by
  unfold processEntry at h
  split at h
  · exact absurd h (by simp)
  · dsimp only at h
    split at h
    · rename_i hpos
      injection h with h2
      subst h2
      exact hpos
    · exact absurd h (by simp)

/-- Helper: the length of a `filterMap` counts the elements sent to `some`. -/
theorem length_filterMap_eq_countP {α β : Type} (f : α → Option β) (l : List α) :
    (l.filterMap f).length = l.countP fun a => (f a).isSome := by
  induction l with
  | nil => rfl
  | cons x xs ih =>
    cases hx : f x <;>
      simp [List.filterMap_cons, hx, List.countP_cons, ih]

/-- Helper: membership in the Temporal Extractor's output comes from some
record and some emitted entry. -/
theorem mem_create_temporal_data (parse : String → Option Nat)
    (df : List FlatRecord) (t : TemporalRecord)
    (h : t ∈ create_temporal_data parse df) :
    ∃ r ∈ df, ∃ e ∈ r.temporal_data, processEntry parse r e = some t := by
  unfold create_temporal_data at h
  rw [List.mem_flatMap] at h
  obtain ⟨r, hr, ht⟩ := h
  refine ⟨r, hr, ?_⟩
  by_cases hd : r.temporal_data = []
  · rw [if_pos hd] at ht
    exact absurd ht (by simp)
  · rw [if_neg hd] at ht
    rw [List.mem_filterMap] at ht
    obtain ⟨e, he, hpe⟩ := ht
    exact ⟨e, he, hpe⟩

/-- C6: the Temporal Extractor emits exactly one TemporalRecord per
(FlatRecord, date) entry whose date parses and whose day total is positive —
its output length is the count of such entries — an entry is emitted iff its
date parses and its day total is positive, and every retained TemporalRecord
has `total_strings > 0`. -/
theorem c6_temporal_extraction (parse : String → Option Nat)
    (df : List FlatRecord) :
    (create_temporal_data parse df).length =
      (df.map fun r => r.temporal_data.countP fun e =>
        (parse e.1).isSome && decide (0 < e.2.totalDay)).sum ∧
    (∀ r e, (processEntry parse r e).isSome = true ↔
      ((parse e.1).isSome = true ∧ 0 < e.2.totalDay)) ∧
    (∀ t ∈ create_temporal_data parse df, 0 < t.total_strings) := by
  refine ⟨?_, ?_, ?_⟩
  · induction df with
    | nil => rfl
    | cons r rs ih =>
      unfold create_temporal_data at ih ⊢
      rw [List.flatMap_cons, List.length_append, List.map_cons, List.sum_cons, ih]
      congr 1
      by_cases hd : r.temporal_data = []
      · rw [if_pos hd, hd]
        rfl
      · rw [if_neg hd, length_filterMap_eq_countP]
        apply List.countP_congr
        intro e _
        simp [processEntry_isSome parse r e]
  · intro r e
    rw [processEntry_isSome]
    simp
  · intro t ht
    obtain ⟨r, _, e, _, hpe⟩ := mem_create_temporal_data parse df t ht
    exact processEntry_total_pos parse r e t hpe

/-- Concrete temporal day entry: one approved string, no `postEdited`. -/
def dayOne : DayStats := { approvedWithoutEdit := some 1, postEdited := none }

/-- A FlatRecord whose temporal data holds exactly the one-day entry. -/
def tempFlatRec : FlatRecord :=
  { project := "p", language := "l", language_code := "c", method := "AI"
    approved_without_edit := 1, post_edited_0_5 := 0, post_edited_6_10 := 0
    post_edited_11_15 := 0, post_edited_other := 0, weighted_units := 0
    temporal_data := [("2024-01-01", dayOne)], date_from := none, date_to := none }

/-- A date parser that accepts everything as day 0. -/
def parseAll : String → Option Nat := fun _ => some 0

/-- The single TemporalRecord the extractor emits for `tempFlatRec`. -/
def tempOut : TemporalRecord :=
  { date := 0, project := "p", language := "l", method := "AI"
    approved_without_edit := 1, total_strings := 1
    approval_rate := 100, intervention_rate := 0, critical_edits := 0 }

/-- C6 (witness): the emitted record of the concrete one-day input has a
positive day total. -/
theorem c6_temporal_extraction_witness : 0 < tempOut.total_strings :=
  (c6_temporal_extraction parseAll [tempFlatRec]).2.2 tempOut (by
    have h : create_temporal_data parseAll [tempFlatRec] = [tempOut] := by
      simp [create_temporal_data, processEntry, parseAll, tempFlatRec, dayOne,
        tempOut, DayStats.totalDay, DayStats.editedDay, PostEditedJson.empty]
    rw [h]
    exact List.mem_singleton.mpr rfl)

/-- Helper: the two day-level rates of any emitted entry sum to 100 because
the day total is exactly their numerators' sum. -/
theorem processEntry_rates (parse : String → Option Nat) (r : FlatRecord)
    (e : String × DayStats) (t : TemporalRecord)
    (h : processEntry parse r e = some t) :
    t.approval_rate + t.intervention_rate = 100 := by
  unfold processEntry at h
  split at h
  · exact absurd h (by simp)
  · dsimp only at h
    split at h
    · rename_i hpos
      injection h with h2
      subst h2
      show (e.2.approvedWithoutEdit.getD 0 : ℚ) / (e.2.totalDay : ℚ) * 100 +
        (e.2.editedDay : ℚ) / (e.2.totalDay : ℚ) * 100 = 100
      have hTE : e.2.totalDay = e.2.approvedWithoutEdit.getD 0 + e.2.editedDay := by
        simp only [DayStats.totalDay, DayStats.editedDay]
        omega
      have hT : ((e.2.totalDay : ℚ)) ≠ 0 := by
        exact_mod_cast Nat.pos_iff_ne_zero.mp hpos
      field_simp
      rw [hTE]
      push_cast
      ring
    · exact absurd h (by simp)

/-- C10: every TemporalRecord the extractor emits satisfies
`approval_rate + intervention_rate = 100` exactly. -/
theorem c10_day_rates_sum_to_100 (parse : String → Option Nat)
    (df : List FlatRecord) :
    ∀ t ∈ create_temporal_data parse df,
      t.approval_rate + t.intervention_rate = 100 := by
  intro t ht
  obtain ⟨r, _, e, _, hpe⟩ := mem_create_temporal_data parse df t ht
  exact processEntry_rates parse r e t hpe

/-- C10 (witness): the sum of the two rates on the concrete one-day input. -/
theorem c10_day_rates_sum_to_100_witness :
    tempOut.approval_rate + tempOut.intervention_rate = 100 :=
  c10_day_rates_sum_to_100 parseAll [tempFlatRec] tempOut (by
    have h : create_temporal_data parseAll [tempFlatRec] = [tempOut] := by
      simp [create_temporal_data, processEntry, parseAll, tempFlatRec, dayOne,
        tempOut, DayStats.totalDay, DayStats.editedDay, PostEditedJson.empty]
    rw [h]
    exact List.mem_singleton.mpr rfl)

/-! ### C7 -/

/-- C7: when no usable data exists both core operations yield an empty
result instead of an exception: the Loader's result is the no-data signal
exactly when there are zero files or zero surviving records, and the
Temporal Extractor returns the empty table when no entry is usable. -/
theorem c7_no_data_empty_result (files : List ExportFile)
    (parse : String → Option Nat) (df : List FlatRecord) :
    ((load_crowdin_data files).result = none ↔
      (files = [] ∨ allRecords files = [])) ∧
    ((∀ r ∈ df, ∀ e ∈ r.temporal_data, processEntry parse r e = none) →
      create_temporal_data parse df = []) := by
  constructor
  · unfold load_crowdin_data
    by_cases hf : files = []
    · simp [hf]
    · rw [if_neg hf]
      by_cases ha : allRecords files = []
      · simp [ha, hf]
      · simp [ha, hf]
  · intro h
    unfold create_temporal_data
    rw [List.flatMap_eq_nil_iff]
    intro r hr
    by_cases hd : r.temporal_data = []
    · rw [if_pos hd]
    · rw [if_neg hd, List.filterMap_eq_nil_iff]
      intro e he
      exact h r hr e he

/-- C7 (witness): zero files give the no-data signal; an empty record list
gives the empty temporal table. -/
theorem c7_no_data_empty_result_witness :
    (load_crowdin_data []).result = none ∧
    create_temporal_data parseAll [] = [] :=
  ⟨(c7_no_data_empty_result [] parseAll []).1.mpr (Or.inl rfl),
   (c7_no_data_empty_result [] parseAll []).2 (by simp)⟩

/-! ### C8 -/

/-- Helper: files that all parsed produce no warnings. -/
theorem no_warnings_of_valid (l : List ExportFile)
    (h : ∀ f ∈ l, f.2.isSome = true) :
    (l.filterMap fun f => match f.2 with
      | none => some (warnMsg f.1)
      | some _ => none) = [] := by
  rw [List.filterMap_eq_nil_iff]
  intro f hf
  have h2 := h f hf
  cases hf2 : f.2 with
  | none => rw [hf2] at h2; exact absurd h2 (by simp)
  | some e => simp [hf2]

/-- Helper: the warning list the Loader reports on a non-empty batch. -/
theorem load_warnings (files : List ExportFile) (h : files ≠ []) :
    (load_crowdin_data files).warnings = files.filterMap fun f =>
      match f.2 with
      | none => some (warnMsg f.1)
      | some _ => none := by
  unfold load_crowdin_data
  rw [if_neg h]
  by_cases ha : allRecords files = [] <;> simp [ha]

/-- Helper: the result the Loader reports on a non-empty batch. -/
theorem load_result (files : List ExportFile) (h : files ≠ []) :
    (load_crowdin_data files).result =
      if allRecords files = [] then none else some (allRecords files) := by
  unfold load_crowdin_data
  rw [if_neg h]
  by_cases ha : allRecords files = [] <;> simp [ha]

/-- C8: a batch containing one unparseable file records exactly one warning
for it, skips it, and continues: the accumulated records are exactly those
of the remaining valid files, and the Loader still returns (the records, or
the no-data signal when the valid files produce none) instead of aborting. -/
theorem c8_bad_file_skipped (pre post : List ExportFile) (name : String)
    (hpre : ∀ f ∈ pre, f.2.isSome = true)
    (hpost : ∀ f ∈ post, f.2.isSome = true) :
    (load_crowdin_data (pre ++ (name, none) :: post)).warnings = [warnMsg name] ∧
    allRecords (pre ++ (name, none) :: post) = allRecords (pre ++ post) ∧
    ((load_crowdin_data (pre ++ (name, none) :: post)).result =
        some (allRecords (pre ++ post)) ∨
      (allRecords (pre ++ post) = [] ∧
        (load_crowdin_data (pre ++ (name, none) :: post)).result = none)) := by
  have hne : pre ++ (name, none) :: post ≠ [] := by simp
  have hrec : allRecords (pre ++ (name, none) :: post) = allRecords (pre ++ post) := by
    unfold allRecords
    simp [List.flatMap_append, List.flatMap_cons, fileRecords]
  refine ⟨?_, hrec, ?_⟩
  · rw [load_warnings _ hne, List.filterMap_append, List.filterMap_cons]
    rw [no_warnings_of_valid pre hpre, no_warnings_of_valid post hpost]
    rfl
  · rw [load_result _ hne, hrec]
    by_cases ha : allRecords (pre ++ post) = []
    · right
      exact ⟨ha, by rw [if_pos ha]⟩
    · left
      rw [if_neg ha]

/-- A small export with one non-zero block, used as a valid file. -/
def goodExport : RawExport :=
  { name := some "good"
    dateFrom := none
    dateTo := none
    data := [{ langName := some "L"
               langCode := some "l"
               ai := some { cumulativeStatistics := some
                              { approvedWithoutEdit := some 3
                                postEdited := none
                                weightedUnits := none }
                            temporalStatistics := [] }
               mt := none
               tm := none }] }

/-- C8 (witness): one valid file plus one unparseable file yields the
single warning and the valid file's records. -/
theorem c8_bad_file_skipped_witness :
    (load_crowdin_data ([("a.json", some goodExport)] ++
      ("bad.json", (none : Option RawExport)) :: [])).warnings =
        [warnMsg "bad.json"] :=
  (c8_bad_file_skipped [("a.json", some goodExport)] [] "bad.json"
    (by decide) (by decide)).1
